import Mathlib

/-!
Verification of the certmaker package (pkg/certmaker/certmaker.go): a shallow
embedding of the KMS configuration validator, the KMS gateway, the certificate
chain orchestrator and the certificate writer, together with theorems checking
the natural-language specification against the embedded code.

Go strings are modelled as Lean strings; Go byte indices coincide with the
character indices used here on the ASCII inputs that the key-identifier
grammars describe. Go maps are modelled as optional association lists, so that
a nil map and an empty map stay distinct. Fallible Go calls return Except.
-/

namespace Certmaker

/-- Go strings.HasPrefix. -/
def strHasPre (pre s : String) : Bool := pre.data.isPrefixOf s.data

/-- Go strings.TrimPrefix: drops pre when it is a prefix, else returns s. -/
def dropPre (pre s : String) : String :=
  if strHasPre pre s then ⟨s.data.drop pre.data.length⟩ else s

/-- Scan helper for strIndex: first position at which pat is a prefix. -/
def idxAux (pat : List Char) : List Char → Nat → Option Nat
  | [], i => if pat = [] then some i else none
  | c :: rest, i =>
    if pat.isPrefixOf (c :: rest) then some i else idxAux pat rest (i + 1)

/-- Go strings.Index: index of the first occurrence of pat in s, -1 if none. -/
def strIndex (s pat : String) : Int :=
  match idxAux pat.data s.data 0 with
  | some n => (n : Int)
  | none => -1

/-- Go strings.Contains. -/
def containsSub (s sub : String) : Bool := strIndex s sub ≠ -1

/-- Go strings.TrimSpace: drop whitespace from both ends. -/
def strTrim (s : String) : String :=
  ⟨((s.data.dropWhile Char.isWhitespace).reverse.dropWhile Char.isWhitespace).reverse⟩

/-- Fuel-indexed splitter: cuts the character list at every leftmost
non-overlapping occurrence of the separator. The fuel bounds recursion and is
ample whenever it exceeds the list length and the separator is non-empty. -/
def splitAux (sep : List Char) : Nat → List Char → List Char → List (List Char)
  | 0, acc, _ => [acc.reverse]
  | _ + 1, acc, [] => [acc.reverse]
  | fuel + 1, acc, c :: rest =>
    if sep.isPrefixOf (c :: rest) then
      acc.reverse :: splitAux sep fuel [] (List.drop sep.length (c :: rest))
    else splitAux sep fuel (c :: acc) rest

/-- Go strings.Split for a non-empty separator. -/
def strSplit (s sep : String) : List String :=
  (splitAux sep.data (s.data.length + 1) [] s.data).map (fun l => ⟨l⟩)

/-- Go slice s[a:b] (indices in characters, which match bytes on ASCII). -/
def substrRange (s : String) (a b : Nat) : String := ⟨(s.data.drop a).take (b - a)⟩

/-- Go slice s[a:]. -/
def substrFrom (s : String) (a : Nat) : String := ⟨s.data.drop a⟩

/-- KMSConfig from certmaker.go; the Go field Type is called typ here because
Type is a Lean keyword. Options models the Go map, nil map as none. -/
structure KMSConfig where
  CommonName : String
  typ : String
  RootKeyID : String
  IntermediateKeyID : String
  LeafKeyID : String
  Options : Option (List (String × String))
deriving DecidableEq

/-- Go map read m[k]: empty string when the map is nil or the key is absent. -/
def optGet (opts : Option (List (String × String))) (k : String) : String :=
  match opts with
  | none => ""
  | some l => (l.lookup k).getD ""

/-- The validateAWSKeyID closure from ValidateKMSConfig (certmaker.go lines
384-405); region is the captured Options value for aws-region. -/
def validateAWSKeyID (region keyID keyType : String) : Except String Unit :=
  if keyID = "" then .ok ()
  else if strHasPre "arn:aws:kms:" keyID then
    let parts := strSplit keyID ":"
    if parts.length < 6 then
      .error ("invalid AWS KMS ARN format for " ++ keyType)
    else if parts.getD 3 "" ≠ region then
      .error ("region in ARN (" ++ parts.getD 3 "" ++ ") does not match configured region (" ++ region ++ ")")
    else .ok ()
  else if strHasPre "alias/" keyID then
    if dropPre "alias/" keyID = "" then
      .error ("alias name cannot be empty for " ++ keyType)
    else .ok ()
  else .error ("awskms " ++ keyType ++ " must start with \x27arn:aws:kms:\x27 or \x27alias/\x27")

/-- The validateGCPKeyID closure (certmaker.go lines 421-441). -/
def validateGCPKeyID (keyID keyType : String) : Except String Unit :=
  if keyID = "" then .ok ()
  else if !containsSub keyID "projects/" then
    .error ("gcpkms " ++ keyType ++ " must start with \x27projects/\x27")
  else if !containsSub keyID "/locations/" then
    .error ("gcpkms " ++ keyType ++ " must contain \x27/locations/\x27")
  else if !containsSub keyID "/keyRings/" then
    .error ("gcpkms " ++ keyType ++ " must contain \x27/keyRings/\x27")
  else if !containsSub keyID "/cryptoKeys/" then
    .error ("gcpkms " ++ keyType ++ " must contain \x27/cryptoKeys/\x27")
  else if !containsSub keyID "/cryptoKeyVersions/" then
    .error ("gcpkms " ++ keyType ++ " must contain \x27/cryptoKeyVersions/\x27")
  else .ok ()

/-- The validateAzureKeyID closure (certmaker.go lines 460-479). -/
def validateAzureKeyID (keyID keyType : String) : Except String Unit :=
  if keyID = "" then .ok ()
  else if !strHasPre "azurekms:name=" keyID then
    .error ("azurekms " ++ keyType ++ " must start with \x27azurekms:name=\x27")
  else
    let nameStart := strIndex keyID "name=" + 5
    let vaultIndex := strIndex keyID ";vault="
    if vaultIndex = -1 then
      .error ("azurekms " ++ keyType ++ " must contain \x27;vault=\x27 parameter")
    else if strTrim (substrRange keyID nameStart.toNat vaultIndex.toNat) = "" then
      .error ("key name cannot be empty for " ++ keyType)
    else if strTrim (substrFrom keyID (vaultIndex.toNat + 7)) = "" then
      .error ("vault name cannot be empty for " ++ keyType)
    else .ok ()

/-- The validateHashiVaultKeyID closure (certmaker.go lines 501-516). -/
def validateHashiVaultKeyID (keyID keyType : String) : Except String Unit :=
  if keyID = "" then .ok ()
  else
    let parts := strSplit keyID "/"
    if parts.length < 3 then
      .error ("hashivault " ++ keyType ++ " must be in format: transit/keys/keyname")
    else if parts.getD 0 "" ≠ "transit" ∨ parts.getD 1 "" ≠ "keys" then
      .error ("hashivault " ++ keyType ++ " must start with \x27transit/keys/\x27")
    else if parts.getD 2 "" = "" then
      .error ("key name cannot be empty for " ++ keyType)
    else .ok ()

/-- The per-type switch body of ValidateKMSConfig (certmaker.go lines 378-529). -/
def perTypeValidation (config : KMSConfig) : Except String Unit :=
  if config.typ = "awskms" then
    if optGet config.Options "aws-region" = "" then
      .error "aws-region is required for AWS KMS"
    else
      match validateAWSKeyID (optGet config.Options "aws-region") config.RootKeyID "RootKeyID" with
      | .error e => .error e
      | .ok () =>
      match validateAWSKeyID (optGet config.Options "aws-region") config.IntermediateKeyID "IntermediateKeyID" with
      | .error e => .error e
      | .ok () =>
      match validateAWSKeyID (optGet config.Options "aws-region") config.LeafKeyID "LeafKeyID" with
      | .error e => .error e
      | .ok () => .ok ()
  else if config.typ = "gcpkms" then
    if optGet config.Options "gcp-credentials-file" = "" then
      .error "gcp-credentials-file is required for GCP KMS"
    else
      match validateGCPKeyID config.RootKeyID "RootKeyID" with
      | .error e => .error e
      | .ok () =>
      match validateGCPKeyID config.IntermediateKeyID "IntermediateKeyID" with
      | .error e => .error e
      | .ok () =>
      match validateGCPKeyID config.LeafKeyID "LeafKeyID" with
      | .error e => .error e
      | .ok () => .ok ()
  else if config.typ = "azurekms" then
    if config.Options = none then
      .error "options map is required for Azure KMS"
    else if optGet config.Options "azure-tenant-id" = "" then
      .error "azure-tenant-id is required for Azure KMS"
    else
      match validateAzureKeyID config.RootKeyID "RootKeyID" with
      | .error e => .error e
      | .ok () =>
      match validateAzureKeyID config.IntermediateKeyID "IntermediateKeyID" with
      | .error e => .error e
      | .ok () =>
      match validateAzureKeyID config.LeafKeyID "LeafKeyID" with
      | .error e => .error e
      | .ok () => .ok ()
  else if config.typ = "hashivault" then
    if config.Options = none then
      .error "options map is required for HashiVault KMS"
    else if optGet config.Options "vault-token" = "" then
      .error "vault-token is required for HashiVault KMS"
    else if optGet config.Options "vault-address" = "" then
      .error "vault-address is required for HashiVault KMS"
    else
      match validateHashiVaultKeyID config.RootKeyID "RootKeyID" with
      | .error e => .error e
      | .ok () =>
      match validateHashiVaultKeyID config.IntermediateKeyID "IntermediateKeyID" with
      | .error e => .error e
      | .ok () =>
      match validateHashiVaultKeyID config.LeafKeyID "LeafKeyID" with
      | .error e => .error e
      | .ok () => .ok ()
  else .error ("unsupported KMS type: " ++ config.typ)

/-- ValidateKMSConfig (certmaker.go lines 373-540): the empty-type check, the
per-type switch, then the trailing RootKeyID and LeafKeyID non-emptiness
checks. -/
def ValidateKMSConfig (config : KMSConfig) : Except String Unit :=
  if config.typ = "" then .error "KMS type cannot be empty"
  else
    match perTypeValidation config with
    | .error e => .error e
    | .ok () =>
      if config.RootKeyID = "" then .error "RootKeyID must be specified"
      else if config.LeafKeyID = "" then .error "LeafKeyID must be specified"
      else .ok ()

/-! Spec-side key-identifier grammars, written from the words of the spec and
of the claims, to be compared with the validators embedded from the source. -/

/-- Spec grammar for AWS: prefix arn:aws:kms: with at least 6 colon-delimited
segments whose 4th segment equals the configured region, or prefix alias/
with a non-empty alias name. -/
def awsGrammar (region keyID : String) : Bool :=
  (strHasPre "arn:aws:kms:" keyID ∧ (strSplit keyID ":").length ≥ 6 ∧
    (strSplit keyID ":").getD 3 "" = region) ∨
  (strHasPre "alias/" keyID ∧ dropPre "alias/" keyID ≠ "")

/-- Spec grammar for GCP: the identifier contains projects/, /locations/,
/keyRings/, /cryptoKeys/ and /cryptoKeyVersions/. -/
def gcpGrammar (keyID : String) : Bool :=
  containsSub keyID "projects/" ∧ containsSub keyID "/locations/" ∧
  containsSub keyID "/keyRings/" ∧ containsSub keyID "/cryptoKeys/" ∧
  containsSub keyID "/cryptoKeyVersions/"

/-- The name part of an Azure identifier azurekms:name=NAME;vault=VAULT: the
text between the azurekms:name= heading and the first ;vault= separator. -/
def azureNamePart (keyID : String) : String :=
  substrRange keyID 14 (strIndex keyID ";vault=").toNat

/-- The vault part of an Azure identifier: the text after the first ;vault=
separator. -/
def azureVaultPart (keyID : String) : String :=
  substrFrom keyID ((strIndex keyID ";vault=").toNat + 7)

/-- Spec grammar for Azure exactly as the claim words it: prefix
azurekms:name=, a ;vault= separator, and non-empty name and vault parts. -/
def azureGrammar (keyID : String) : Bool :=
  strHasPre "azurekms:name=" keyID ∧ strIndex keyID ";vault=" ≠ -1 ∧
  azureNamePart keyID ≠ "" ∧ azureVaultPart keyID ≠ ""

/-- Amended Azure grammar: the name and vault parts must be non-empty after
trimming whitespace, matching the TrimSpace calls in the source. -/
def azureGrammarTrimmed (keyID : String) : Bool :=
  strHasPre "azurekms:name=" keyID ∧ strIndex keyID ";vault=" ≠ -1 ∧
  strTrim (azureNamePart keyID) ≠ "" ∧ strTrim (azureVaultPart keyID) ≠ ""

/-- Spec grammar for HashiVault: at least 3 slash-separated segments, the
first two literally transit and keys, and a non-empty third. -/
def hvGrammar (keyID : String) : Bool :=
  ((strSplit keyID "/").length ≥ 3 ∧ (strSplit keyID "/").getD 0 "" = "transit" ∧
   (strSplit keyID "/").getD 1 "" = "keys" ∧ (strSplit keyID "/").getD 2 "" ≠ "")

/-! The KMS gateway InitKMS (certmaker.go lines 62-142). The provider client
library call kms.Get is an oracle parameter; it may report an error or return
a nil signer (modelled as none). Environment mutations through os.Setenv and
the references passed to kms.Get are recorded in a trace. -/

/-- Opaque model of a public key held by a signer. -/
structure PubKey where
  id : Nat
deriving DecidableEq

/-- Opaque model of a crypto.Signer obtained from a SignerVerifier. -/
structure CSigner where
  id : Nat
deriving DecidableEq

instance {ε α : Type} [DecidableEq ε] [DecidableEq α] : DecidableEq (Except ε α) :=
  fun a b =>
  match a, b with
  | .error x, .error y =>
    if h : x = y then isTrue (by rw [h]) else isFalse (fun hc => by cases hc; exact h rfl)
  | .error _, .ok _ => isFalse (by intro h; cases h)
  | .ok _, .error _ => isFalse (by intro h; cases h)
  | .ok x, .ok y =>
    if h : x = y then isTrue (by rw [h]) else isFalse (fun hc => by cases hc; exact h rfl)

/-- Model of a signature.SignerVerifier: its public key result, whether it
implements the CryptoSignerVerifier interface, and its CryptoSigner result. -/
structure SV where
  pubKey : Except String PubKey
  hasCryptoSigner : Bool
  cryptoSigner : Except String CSigner
deriving DecidableEq

/-- Observable effects of one InitKMS call: the os.Setenv key-value pairs in
order, and the reference strings passed to kms.Get. -/
structure KMSTrace where
  envSets : List (String × String)
  kmsGets : List String
deriving DecidableEq

/-- The Azure key URI rewrite inside InitKMS (certmaker.go lines 92-101):
keyURI starts as RootKeyID and is replaced by the fully-qualified vault URI
when the short form is recognized. -/
def azureKeyURI (rootKeyID : String) : String :=
  if strHasPre "azurekms:name=" rootKeyID then
    let nameStart := (strIndex rootKeyID "name=" + 5).toNat
    let vaultIndex := strIndex rootKeyID ";vault="
    if vaultIndex ≠ -1 then
      let keyName := strTrim (substrRange rootKeyID nameStart vaultIndex.toNat)
      let vaultName := strTrim (substrFrom rootKeyID (vaultIndex.toNat + 7))
      "azurekms://" ++ vaultName ++ ".vault.azure.net/" ++ keyName
    else rootKeyID
  else rootKeyID

/-- Shared tail of each provider branch of InitKMS: call kms.Get on the built
reference, wrap a provider error, and reject a nil signer. -/
def kmsFinish (kmsGet : String → Except String (Option SV)) (ref : String)
    (envSets : List (String × String)) (wrapMsg : String) :
    Except String SV × KMSTrace :=
  match kmsGet ref with
  | .error e => (.error (wrapMsg ++ e), ⟨envSets, [ref]⟩)
  | .ok none => (.error "KMS returned nil signer", ⟨envSets, [ref]⟩)
  | .ok (some sv) => (.ok sv, ⟨envSets, [ref]⟩)

/-- InitKMS (certmaker.go lines 62-142): validate, then dispatch on the
provider type, apply provider options to the environment, build the provider
reference from RootKeyID and request a signer from kms.Get. -/
def InitKMS (kmsGet : String → Except String (Option SV)) (config : KMSConfig) :
    Except String SV × KMSTrace :=
  match ValidateKMSConfig config with
  | .error e => (.error ("invalid KMS configuration: " ++ e), ⟨[], []⟩)
  | .ok () =>
    if config.typ = "awskms" then
      let ref := "awskms:///" ++ config.RootKeyID
      let env := if optGet config.Options "aws-region" ≠ "" then
        [("AWS_REGION", optGet config.Options "aws-region")] else []
      kmsFinish kmsGet ref env "failed to initialize AWS KMS: "
    else if config.typ = "gcpkms" then
      let ref := "gcpkms://" ++ config.RootKeyID
      let env := if optGet config.Options "gcp-credentials-file" ≠ "" then
        [("GCP_CREDENTIALS_FILE", optGet config.Options "gcp-credentials-file")] else []
      kmsFinish kmsGet ref env "failed to initialize GCP KMS: "
    else if config.typ = "azurekms" then
      let keyURI := azureKeyURI config.RootKeyID
      let env := if config.Options ≠ none ∧ optGet config.Options "azure-tenant-id" ≠ "" then
        [("AZURE_TENANT_ID", optGet config.Options "azure-tenant-id"),
         ("AZURE_ADDITIONALLY_ALLOWED_TENANTS", "*")] else []
      let env := env ++ [("AZURE_AUTHORITY_HOST", "https://login.microsoftonline.com/")]
      kmsFinish kmsGet keyURI env "failed to initialize Azure KMS: "
    else if config.typ = "hashivault" then
      let keyURI := "hashivault://" ++ config.RootKeyID
      let env := (if config.Options ≠ none ∧ optGet config.Options "vault-token" ≠ "" then
        [("VAULT_TOKEN", optGet config.Options "vault-token")] else []) ++
        (if config.Options ≠ none ∧ optGet config.Options "vault-address" ≠ "" then
        [("VAULT_ADDR", optGet config.Options "vault-address")] else [])
      kmsFinish kmsGet keyURI env "failed to initialize HashiVault KMS: "
    else (.error ("unsupported KMS type: " ++ config.typ), ⟨[], []⟩)

/-! The certificate writer WriteCertificateToFile (certmaker.go lines
339-370). Certificates are modelled with their raw DER bytes, the IsCA flag
and the outcome of CheckSignatureFrom on themselves; the filesystem is a
finite map from path to content and stdout a list of printed lines. The
success of os.Create and of pem.Encode on a given path are oracle
parameters. -/

/-- Model of an x509.Certificate. A value of this type also serves as a
certificate template, as in Go where templates are x509.Certificate values;
selfVerifies records whether cert.CheckSignatureFrom(cert) returns nil. -/
structure Cert where
  Raw : List Nat
  IsCA : Bool
  selfVerifies : Bool
  SignatureAlgorithm : Nat
deriving DecidableEq

/-- Filesystem contents plus printed stdout lines. -/
structure WriteState where
  fs : List (String × List Nat)
  stdout : List String
deriving DecidableEq

/-- Replace or insert a file in the filesystem map. -/
def fsSet (fs : List (String × List Nat)) (k : String) (v : List Nat) :
    List (String × List Nat) :=
  (k, v) :: fs.filter (fun p => p.1 ≠ k)

/-- The classification in WriteCertificateToFile (certmaker.go lines
358-366): root when CA and self-verifying, intermediate when CA only, leaf
otherwise. -/
def certTypeOf (cert : Cert) : String :=
  if cert.IsCA then
    if cert.selfVerifies then "root" else "intermediate"
  else "leaf"

/-- WriteCertificateToFile (certmaker.go lines 339-370): reject a nil
certificate or empty raw bytes, create-truncate the file, print the status
line, then PEM-encode into the file. The encoded file content is modelled by
the raw DER bytes of the single CERTIFICATE block. -/
def WriteCertificateToFile (createOk pemEncodeOk : String → Bool)
    (cert : Option Cert) (filename : String) (st : WriteState) :
    Except String Unit × WriteState :=
  match cert with
  | none => (.error "certificate is nil", st)
  | some c =>
    if c.Raw = [] then (.error "certificate has no raw data", st)
    else if !createOk filename then (.error ("failed to create " ++ filename), st)
    else
      let st1 : WriteState := ⟨fsSet st.fs filename [], st.stdout⟩
      let st2 : WriteState :=
        ⟨st1.fs, st1.stdout ++ ["Saved " ++ certTypeOf c ++ " cert to " ++ filename]⟩
      if pemEncodeOk filename then
        (.ok (), ⟨fsSet st2.fs filename c.Raw, st2.stdout⟩)
      else (.error ("failed to encode certificate to " ++ filename), st2)

/-! The chain orchestrator CreateCertificates (certmaker.go lines 147-336).
External collaborators are oracle parameters collected in Ops: the package
variable InitKMS (injectable in Go, so a function parameter here), the
template subsystem GetDefaultTemplate and ParseTemplate, os.ReadFile,
ca.ToSignatureAlgorithm, x509util.CreateCertificate, the clock, and the
filesystem oracles used by WriteCertificateToFile. Every call to InitKMS,
ToSignatureAlgorithm and CreateCertificate is recorded in a trace, together
with the writer effects. -/

/-- One x509util.CreateCertificate invocation: the template, the parent
certificate, the subject public key and the signing key. -/
structure CreateCall where
  template : Cert
  parent : Cert
  pub : PubKey
  signer : CSigner
deriving DecidableEq

/-- Observable effects of a CreateCertificates run. -/
structure Trace where
  initCalls : List KMSConfig
  sigAlgCalls : List CSigner
  createCalls : List CreateCall
  createResults : List Cert
  writes : WriteState
deriving DecidableEq

def Trace.empty : Trace := ⟨[], [], [], [], ⟨[], []⟩⟩

/-- Oracle bundle for the external collaborators of CreateCertificates. -/
structure Ops where
  initKMS : KMSConfig → Except String SV
  getDefaultTemplate : String → Except String String
  readFile : String → Except String String
  parseTemplate : String → Option Cert → Nat → PubKey → String → Except String Cert
  toSignatureAlgorithm : CSigner → Except String Nat
  createCertificate : Cert → Cert → PubKey → CSigner → Except String Cert
  createOk : String → Bool
  pemEncodeOk : String → Bool
  now : Nat

/-- Root stage of CreateCertificates (certmaker.go lines 153-204): fetch the
root public key and crypto signer from the supplied signer, resolve the root
template, set its signature algorithm from the root signer, self-sign and
persist. Returns the root signer and root certificate. -/
def rootStage (ops : Ops) (sv : SV) (config : KMSConfig)
    (rootTemplatePath rootCertPath : String) (rootLifetime : Nat) (tr : Trace) :
    Except String (CSigner × Cert) × Trace :=
  match sv.pubKey with
  | .error e => (.error ("error getting root public key: " ++ e), tr)
  | .ok rootPubKey =>
  if !sv.hasCryptoSigner then (.error "signer does not implement CryptoSigner", tr)
  else
  match sv.cryptoSigner with
  | .error e => (.error ("error getting root crypto signer: " ++ e), tr)
  | .ok rootSigner =>
  match (if rootTemplatePath = "" then
          match ops.getDefaultTemplate "root" with
          | .error e => .error ("error getting default root template: " ++ e)
          | .ok t => .ok t
         else
          match ops.readFile rootTemplatePath with
          | .error e => .error ("root template error: template not found at " ++ rootTemplatePath ++ ": " ++ e)
          | .ok t => .ok t : Except String String) with
  | .error e => (.error e, tr)
  | .ok rootTemplate =>
  match ops.parseTemplate rootTemplate none (ops.now + rootLifetime) rootPubKey config.CommonName with
  | .error e => (.error ("error parsing root template: " ++ e), tr)
  | .ok rootTmpl0 =>
  let tr := { tr with sigAlgCalls := tr.sigAlgCalls ++ [rootSigner] }
  match ops.toSignatureAlgorithm rootSigner with
  | .error e => (.error ("error determining signature algorithm: " ++ e), tr)
  | .ok alg =>
  let rootTmpl := { rootTmpl0 with SignatureAlgorithm := alg }
  let tr := { tr with createCalls := tr.createCalls ++ [⟨rootTmpl, rootTmpl, rootPubKey, rootSigner⟩] }
  match ops.createCertificate rootTmpl rootTmpl rootPubKey rootSigner with
  | .error e => (.error ("error creating root certificate: " ++ e), tr)
  | .ok rootCert =>
  let tr := { tr with createResults := tr.createResults ++ [rootCert] }
  match WriteCertificateToFile ops.createOk ops.pemEncodeOk (some rootCert) rootCertPath tr.writes with
  | (.error e, ws) => (.error ("error writing root certificate: " ++ e), { tr with writes := ws })
  | (.ok _, ws) => (.ok (rootSigner, rootCert), { tr with writes := ws })

/-- Intermediate stage of CreateCertificates (certmaker.go lines 210-270):
initialize a fresh signer for the intermediate key, resolve the intermediate
template against the root certificate, set its signature algorithm from the
intermediate signer, sign with the root signer and persist. Returns the
intermediate certificate and the intermediate signer. -/
def intermediateStage (ops : Ops) (config : KMSConfig)
    (intermediateKeyID intermediateTemplatePath intermediateCertPath : String)
    (intermediateLifetime : Nat) (rootCert : Cert) (rootSigner : CSigner) (tr : Trace) :
    Except String (Cert × CSigner) × Trace :=
  let intermediateConfig := { config with RootKeyID := intermediateKeyID }
  let tr := { tr with initCalls := tr.initCalls ++ [intermediateConfig] }
  match ops.initKMS intermediateConfig with
  | .error e => (.error ("error initializing intermediate KMS: " ++ e), tr)
  | .ok intermediateSV =>
  match intermediateSV.pubKey with
  | .error e => (.error ("error getting intermediate public key: " ++ e), tr)
  | .ok intermediatePubKey =>
  if !intermediateSV.hasCryptoSigner then
    (.error "intermediate signer does not implement CryptoSigner", tr)
  else
  match intermediateSV.cryptoSigner with
  | .error e => (.error ("error getting intermediate crypto signer: " ++ e), tr)
  | .ok intermediateSigner =>
  match (if intermediateTemplatePath = "" then
          match ops.getDefaultTemplate "intermediate" with
          | .error e => .error ("error getting default intermediate template: " ++ e)
          | .ok t => .ok t
         else
          match ops.readFile intermediateTemplatePath with
          | .error e => .error ("intermediate template error: template not found at " ++ intermediateTemplatePath ++ ": " ++ e)
          | .ok t => .ok t : Except String String) with
  | .error e => (.error e, tr)
  | .ok intermediateTemplate =>
  match ops.parseTemplate intermediateTemplate (some rootCert) (ops.now + intermediateLifetime) intermediatePubKey config.CommonName with
  | .error e => (.error ("error parsing intermediate template: " ++ e), tr)
  | .ok intermediateTmpl0 =>
  let tr := { tr with sigAlgCalls := tr.sigAlgCalls ++ [intermediateSigner] }
  match ops.toSignatureAlgorithm intermediateSigner with
  | .error e => (.error ("error determining signature algorithm: " ++ e), tr)
  | .ok alg =>
  let intermediateTmpl := { intermediateTmpl0 with SignatureAlgorithm := alg }
  let tr := { tr with createCalls := tr.createCalls ++ [⟨intermediateTmpl, rootCert, intermediatePubKey, rootSigner⟩] }
  match ops.createCertificate intermediateTmpl rootCert intermediatePubKey rootSigner with
  | .error e => (.error ("error creating intermediate certificate: " ++ e), tr)
  | .ok intermediateCert =>
  let tr := { tr with createResults := tr.createResults ++ [intermediateCert] }
  match WriteCertificateToFile ops.createOk ops.pemEncodeOk (some intermediateCert) intermediateCertPath tr.writes with
  | (.error e, ws) => (.error ("error writing intermediate certificate: " ++ e), { tr with writes := ws })
  | (.ok _, ws) => (.ok (intermediateCert, intermediateSigner), { tr with writes := ws })

/-- Leaf stage of CreateCertificates (certmaker.go lines 277-335): initialize
a fresh signer for the leaf key, require its CryptoSigner capability while
discarding the obtained signer, resolve the leaf template against the active
signing certificate, set its signature algorithm from the active signing key,
sign with the active signing key and persist. -/
def leafStage (ops : Ops) (config : KMSConfig)
    (leafTemplatePath leafCertPath : String) (leafLifetime : Nat)
    (signingCert : Cert) (signingKey : CSigner) (tr : Trace) :
    Except String Unit × Trace :=
  let leafConfig := { config with RootKeyID := config.LeafKeyID }
  let tr := { tr with initCalls := tr.initCalls ++ [leafConfig] }
  match ops.initKMS leafConfig with
  | .error e => (.error ("error initializing leaf KMS: " ++ e), tr)
  | .ok leafSV =>
  match leafSV.pubKey with
  | .error e => (.error ("error getting leaf public key: " ++ e), tr)
  | .ok leafPubKey =>
  if !leafSV.hasCryptoSigner then
    (.error "leaf signer does not implement CryptoSigner", tr)
  else
  match leafSV.cryptoSigner with
  | .error e => (.error ("error getting leaf crypto signer: " ++ e), tr)
  | .ok _ =>
  match (if leafTemplatePath = "" then
          match ops.getDefaultTemplate "leaf" with
          | .error e => .error ("error getting default leaf template: " ++ e)
          | .ok t => .ok t
         else
          match ops.readFile leafTemplatePath with
          | .error e => .error ("leaf template error: template not found at " ++ leafTemplatePath ++ ": " ++ e)
          | .ok t => .ok t : Except String String) with
  | .error e => (.error e, tr)
  | .ok leafTemplate =>
  match ops.parseTemplate leafTemplate (some signingCert) (ops.now + leafLifetime) leafPubKey config.CommonName with
  | .error e => (.error ("error parsing leaf template: " ++ e), tr)
  | .ok leafTmpl0 =>
  let tr := { tr with sigAlgCalls := tr.sigAlgCalls ++ [signingKey] }
  match ops.toSignatureAlgorithm signingKey with
  | .error e => (.error ("error determining signature algorithm: " ++ e), tr)
  | .ok alg =>
  let leafTmpl := { leafTmpl0 with SignatureAlgorithm := alg }
  let tr := { tr with createCalls := tr.createCalls ++ [⟨leafTmpl, signingCert, leafPubKey, signingKey⟩] }
  match ops.createCertificate leafTmpl signingCert leafPubKey signingKey with
  | .error e => (.error ("error creating leaf certificate: " ++ e), tr)
  | .ok leafCert =>
  let tr := { tr with createResults := tr.createResults ++ [leafCert] }
  match WriteCertificateToFile ops.createOk ops.pemEncodeOk (some leafCert) leafCertPath tr.writes with
  | (.error e, ws) => (.error ("error writing leaf certificate: " ++ e), { tr with writes := ws })
  | (.ok _, ws) => (.ok (), { tr with writes := ws })

/-- CreateCertificates (certmaker.go lines 147-336): build and persist the
root certificate; when intermediateKeyID is non-empty build and persist the
intermediate certificate and make it and the intermediate signer the active
signing pair, else the root pair stays active; then build and persist the
leaf certificate against the active pair. -/
def CreateCertificates (ops : Ops) (sv : SV) (config : KMSConfig)
    (rootTemplatePath leafTemplatePath rootCertPath leafCertPath
     intermediateKeyID intermediateTemplatePath intermediateCertPath : String)
    (rootLifetime intermediateLifetime leafLifetime : Nat) :
    Except String Unit × Trace :=
  match rootStage ops sv config rootTemplatePath rootCertPath rootLifetime Trace.empty with
  | (.error e, tr) => (.error e, tr)
  | (.ok (rootSigner, rootCert), tr) =>
  if intermediateKeyID ≠ "" then
    match intermediateStage ops config intermediateKeyID intermediateTemplatePath
        intermediateCertPath intermediateLifetime rootCert rootSigner tr with
    | (.error e, tr) => (.error e, tr)
    | (.ok (intermediateCert, intermediateSigner), tr) =>
      leafStage ops config leafTemplatePath leafCertPath leafLifetime
        intermediateCert intermediateSigner tr
  else
    leafStage ops config leafTemplatePath leafCertPath leafLifetime
      rootCert rootSigner tr

/-! Concrete fixtures used by witnesses and counterexamples. -/

/-- A well-behaved signer fixture. -/
def exSV : SV := ⟨.ok ⟨9⟩, true, .ok ⟨0⟩⟩

/-- A kms.Get oracle that always returns a signer. -/
def exKmsGet : String → Except String (Option SV) := fun _ => .ok (some exSV)

/-- A valid AWS alias configuration fixture. -/
def exCfg : KMSConfig :=
  ⟨"cn", "awskms", "alias/root", "alias/ik", "alias/leaf", some [("aws-region", "r")]⟩

/-- An Azure configuration whose root key name has a leading space. -/
def exCfgAzureSpace : KMSConfig :=
  ⟨"cn", "azurekms", "azurekms:name= n;vault=v", "", "azurekms:name=l;vault=v",
   some [("azure-tenant-id", "t")]⟩

/-- An Azure configuration whose root key name is a single space: the name
part is non-empty but blank. -/
def exCfgAzureBlank : KMSConfig :=
  ⟨"cn", "azurekms", "azurekms:name= ;vault=v", "", "azurekms:name=l;vault=v",
   some [("azure-tenant-id", "t")]⟩

/-- Orchestrator oracle fixture: distinct signers per key so that the signing
key used at each stage is observable in the trace. -/
def exOps : Ops where
  initKMS := fun c =>
    .ok ⟨.ok ⟨if c.RootKeyID = "alias/ik" then 11 else 12⟩, true,
         .ok ⟨if c.RootKeyID = "alias/ik" then 1 else 2⟩⟩
  getDefaultTemplate := fun s => .ok s
  readFile := fun p => .ok p
  parseTemplate := fun _ _ _ pk _ => .ok ⟨[pk.id], true, true, 0⟩
  toSignatureAlgorithm := fun s => .ok (s.id + 100)
  createCertificate := fun t _ pk s => .ok ⟨[pk.id, s.id], true, true, t.SignatureAlgorithm⟩
  createOk := fun _ => true
  pemEncodeOk := fun _ => true
  now := 0

/-- Orchestrator oracle fixture whose signers lack the CryptoSigner
capability. -/
def exOpsNoCap : Ops :=
  { exOps with initKMS := fun _ => .ok ⟨.ok ⟨12⟩, false, .ok ⟨2⟩⟩ }

/-- Replace the crypto signer delivered by a SignerVerifier whenever the
original delivery succeeds, keeping failures. Used to state that the leaf
signer obtained by CreateCertificates is discarded. -/
def replaceCS (s : CSigner) (v : SV) : SV :=
  { v with cryptoSigner := v.cryptoSigner.map fun _ => s }

/-! Claim theorems. -/

/-- C6: for every path, WriteCertificateToFile on a nil certificate, or on a
certificate whose raw encoded bytes are empty, returns an error and leaves
the filesystem and stdout untouched. -/
theorem C6_write_rejects_invalid (createOk pemEncodeOk : String → Bool)
    (cert : Option Cert) (filename : String) (st : WriteState) :
    (cert = none →
      WriteCertificateToFile createOk pemEncodeOk cert filename st =
        (.error "certificate is nil", st)) ∧
    (∀ c, cert = some c → c.Raw = [] →
      WriteCertificateToFile createOk pemEncodeOk cert filename st =
        (.error "certificate has no raw data", st)) := by
  constructor
  · intro h; subst h; rfl
  · intro c h hraw; subst h; simp [WriteCertificateToFile, hraw]

/-- Witness for C6 at a nil certificate and at an empty-raw certificate. -/
theorem C6_witness :
    WriteCertificateToFile (fun _ => true) (fun _ => true) none "out.pem" ⟨[], []⟩ =
      (.error "certificate is nil", ⟨[], []⟩) ∧
    WriteCertificateToFile (fun _ => true) (fun _ => true)
        (some ⟨[], true, true, 0⟩) "out.pem" ⟨[], []⟩ =
      (.error "certificate has no raw data", ⟨[], []⟩) :=
  ⟨(C6_write_rejects_invalid _ _ none "out.pem" ⟨[], []⟩).1 rfl,
   (C6_write_rejects_invalid _ _ (some ⟨[], true, true, 0⟩) "out.pem" ⟨[], []⟩).2
     ⟨[], true, true, 0⟩ rfl rfl⟩

/-- C7: WriteCertificateToFile reports a CA certificate that self-verifies as
root, a CA that does not as intermediate, and a non-CA as leaf, in the status
line printed for the written certificate. -/
theorem C7_write_classification (createOk pemEncodeOk : String → Bool)
    (c : Cert) (filename : String) (st : WriteState)
    (hraw : c.Raw ≠ []) (hcreate : createOk filename = true) :
    (WriteCertificateToFile createOk pemEncodeOk (some c) filename st).2.stdout =
      st.stdout ++ ["Saved " ++ certTypeOf c ++ " cert to " ++ filename] ∧
    (c.IsCA = true → c.selfVerifies = true → certTypeOf c = "root") ∧
    (c.IsCA = true → c.selfVerifies = false → certTypeOf c = "intermediate") ∧
    (c.IsCA = false → certTypeOf c = "leaf") := by
  refine ⟨?_, ?_, ?_, ?_⟩
  · simp only [WriteCertificateToFile, hraw, hcreate]
    cases hp : pemEncodeOk filename <;> simp [hp]
  · intro h1 h2; simp [certTypeOf, h1, h2]
  · intro h1 h2; simp [certTypeOf, h1, h2]
  · intro h1; simp [certTypeOf, h1]

/-- Witness for C7 on a self-verifying CA certificate. -/
theorem C7_witness :
    (WriteCertificateToFile (fun _ => true) (fun _ => true)
        (some ⟨[1], true, true, 0⟩) "root.pem" ⟨[], []⟩).2.stdout =
      [] ++ ["Saved " ++ certTypeOf ⟨[1], true, true, 0⟩ ++ " cert to " ++ "root.pem"] ∧
    certTypeOf ⟨[1], true, true, 0⟩ = "root" := by
  have h := C7_write_classification (fun _ => true) (fun _ => true)
    ⟨[1], true, true, 0⟩ "root.pem" ⟨[], []⟩ (by decide) rfl
  exact ⟨h.1, h.2.1 rfl rfl⟩

/-- C10: on a valid certificate the file is created and the status line
printed before the PEM encoding is attempted, so when encoding fails the
call returns an error while the created empty file and the printed status
line remain: the error does not imply an unchanged filesystem. -/
theorem C10_write_not_atomic (createOk pemEncodeOk : String → Bool)
    (c : Cert) (filename : String) (st : WriteState)
    (hraw : c.Raw ≠ []) (hcreate : createOk filename = true)
    (hpem : pemEncodeOk filename = false) :
    WriteCertificateToFile createOk pemEncodeOk (some c) filename st =
      (.error ("failed to encode certificate to " ++ filename),
       ⟨fsSet st.fs filename [],
        st.stdout ++ ["Saved " ++ certTypeOf c ++ " cert to " ++ filename]⟩) ∧
    (fsSet st.fs filename []).lookup filename = some [] := by
  constructor
  · simp [WriteCertificateToFile, hraw, hcreate, hpem]
  · simp [fsSet]

/-- Witness for C10: encoding failure still leaves the created file and the
status line. -/
theorem C10_witness :
    WriteCertificateToFile (fun _ => true) (fun _ => false)
        (some ⟨[1], true, true, 0⟩) "leaf.pem" ⟨[], []⟩ =
      (.error ("failed to encode certificate to " ++ "leaf.pem"),
       ⟨fsSet [] "leaf.pem" [],
        [] ++ ["Saved " ++ certTypeOf ⟨[1], true, true, 0⟩ ++ " cert to " ++ "leaf.pem"]⟩) ∧
    (fsSet [] "leaf.pem" []).lookup "leaf.pem" = some [] :=
  C10_write_not_atomic (fun _ => true) (fun _ => false)
    ⟨[1], true, true, 0⟩ "leaf.pem" ⟨[], []⟩ (by decide) rfl rfl

/-- C4: InitKMS runs ValidateKMSConfig first; when validation fails it
returns the wrapped invalid-KMS-configuration error, calls kms.Get on
nothing and sets no environment variable. -/
theorem C4_initKMS_validates_first
    (kmsGet : String → Except String (Option SV)) (config : KMSConfig)
    (e : String) (h : ValidateKMSConfig config = .error e) :
    InitKMS kmsGet config =
      (.error ("invalid KMS configuration: " ++ e), ⟨[], []⟩) := by
  simp [InitKMS, h]

/-- Witness for C4 on a config with an empty KMS type. -/
theorem C4_witness :
    InitKMS exKmsGet ⟨"cn", "", "", "", "", none⟩ =
      (.error ("invalid KMS configuration: " ++ "KMS type cannot be empty"), ⟨[], []⟩) :=
  C4_initKMS_validates_first exKmsGet ⟨"cn", "", "", "", "", none⟩
    "KMS type cannot be empty" rfl

/-! Helper lemmas about the string primitives and the validators. -/

theorem strHasPre_exists (pre s : String) (h : strHasPre pre s = true) :
    ∃ r, s.data = pre.data ++ r := by
  simp [strHasPre, List.isPrefixOf_iff_prefix] at h
  obtain ⟨t, ht⟩ := h
  exact ⟨t, ht.symm⟩

theorem strIndex_name_of_pre (k : String) (h : strHasPre "azurekms:name=" k = true) :
    strIndex k "name=" = 9 := by
  obtain ⟨r, hr⟩ := strHasPre_exists _ _ h
  simp only [strIndex, hr]
  norm_num [idxAux, List.isPrefixOf]
  decide

theorem arn_not_alias (k : String) (h : strHasPre "arn:aws:kms:" k = true) :
    strHasPre "alias/" k = false := by
  obtain ⟨r, hr⟩ := strHasPre_exists _ _ h
  simp only [strHasPre, hr]
  norm_num [List.isPrefixOf]
  decide

theorem validateAWS_iff (region keyType keyID : String) (h : keyID ≠ "") :
    (validateAWSKeyID region keyID keyType = .ok ()) ↔ awsGrammar region keyID = true := by
  cases h1 : strHasPre "arn:aws:kms:" keyID with
  | true =>
    have h2 := arn_not_alias keyID h1
    by_cases h3 : (strSplit keyID ":").length < 6
    · simp [validateAWSKeyID, awsGrammar, h, h1, h2, h3]
    · by_cases h4 : (strSplit keyID ":").getD 3 "" = region <;>
        simp [validateAWSKeyID, awsGrammar, h, h1, h2, h3, h4] <;> omega
  | false =>
    by_cases h2 : strHasPre "alias/" keyID
    · by_cases h3 : dropPre "alias/" keyID = "" <;>
        simp [validateAWSKeyID, awsGrammar, h, h1, h2, h3]
    · simp [validateAWSKeyID, awsGrammar, h, h1, h2]

theorem validateGCP_iff (keyType keyID : String) (h : keyID ≠ "") :
    (validateGCPKeyID keyID keyType = .ok ()) ↔ gcpGrammar keyID = true := by
  by_cases c1 : containsSub keyID "projects/" <;>
  by_cases c2 : containsSub keyID "/locations/" <;>
  by_cases c3 : containsSub keyID "/keyRings/" <;>
  by_cases c4 : containsSub keyID "/cryptoKeys/" <;>
  by_cases c5 : containsSub keyID "/cryptoKeyVersions/" <;>
    simp [validateGCPKeyID, gcpGrammar, h, c1, c2, c3, c4, c5]

theorem validateAzure_iff (keyType keyID : String) (h : keyID ≠ "") :
    (validateAzureKeyID keyID keyType = .ok ()) ↔ azureGrammarTrimmed keyID = true := by
  by_cases h1 : strHasPre "azurekms:name=" keyID
  · have h9 := strIndex_name_of_pre keyID h1
    by_cases h2 : strIndex keyID ";vault=" = -1
    · simp [validateAzureKeyID, azureGrammarTrimmed, h, h1, h2]
    · have h14 : (strIndex keyID "name=" + 5).toNat = 14 := by rw [h9]; rfl
      by_cases h5 : strTrim (substrRange keyID 14 (strIndex keyID ";vault=").toNat) = "" <;>
      by_cases h6 : strTrim (substrFrom keyID ((strIndex keyID ";vault=").toNat + 7)) = "" <;>
        simp [validateAzureKeyID, azureGrammarTrimmed, azureNamePart, azureVaultPart,
              h, h1, h2, h14, h5, h6]
  · simp [validateAzureKeyID, azureGrammarTrimmed, h, h1]

theorem validateHV_iff (keyType keyID : String) (h : keyID ≠ "") :
    (validateHashiVaultKeyID keyID keyType = .ok ()) ↔ hvGrammar keyID = true := by
  by_cases h1 : (strSplit keyID "/").length < 3
  · simp [validateHashiVaultKeyID, hvGrammar, h, h1]
  · simp [validateHashiVaultKeyID, hvGrammar, h, h1]
    by_cases h2 : (strSplit keyID "/")[0]?.getD "" = "transit" <;>
    by_cases h3 : (strSplit keyID "/")[1]?.getD "" = "keys" <;>
    by_cases h4 : (strSplit keyID "/")[2]?.getD "" = "" <;>
      simp [h2, h3, h4] <;> omega

theorem validateConfig_aws_tie (config : KMSConfig) (ht : config.typ = "awskms")
    (hro : optGet config.Options "aws-region" ≠ "") :
    (ValidateKMSConfig config = .ok ()) ↔
      (validateAWSKeyID (optGet config.Options "aws-region") config.RootKeyID "RootKeyID" = .ok () ∧
       validateAWSKeyID (optGet config.Options "aws-region") config.IntermediateKeyID "IntermediateKeyID" = .ok () ∧
       validateAWSKeyID (optGet config.Options "aws-region") config.LeafKeyID "LeafKeyID" = .ok () ∧
       config.RootKeyID ≠ "" ∧ config.LeafKeyID ≠ "") := by
  cases hv1 : validateAWSKeyID (optGet config.Options "aws-region") config.RootKeyID "RootKeyID" with
  | error e => simp [ValidateKMSConfig, perTypeValidation, ht, hro, hv1]
  | ok u =>
    cases u
    cases hv2 : validateAWSKeyID (optGet config.Options "aws-region") config.IntermediateKeyID "IntermediateKeyID" with
    | error e => simp [ValidateKMSConfig, perTypeValidation, ht, hro, hv1, hv2]
    | ok u =>
      cases u
      cases hv3 : validateAWSKeyID (optGet config.Options "aws-region") config.LeafKeyID "LeafKeyID" with
      | error e => simp [ValidateKMSConfig, perTypeValidation, ht, hro, hv1, hv2, hv3]
      | ok u =>
        cases u
        by_cases hr : config.RootKeyID = "" <;> by_cases hl : config.LeafKeyID = "" <;>
          simp [ValidateKMSConfig, perTypeValidation, ht, hro, hv1, hv2, hv3, hr, hl,
                show ∀ t, validateAWSKeyID (optGet config.Options "aws-region") "" t = .ok ()
                  from fun t => rfl]

theorem validateConfig_gcp_tie (config : KMSConfig) (ht : config.typ = "gcpkms")
    (hro : optGet config.Options "gcp-credentials-file" ≠ "") :
    (ValidateKMSConfig config = .ok ()) ↔
      (validateGCPKeyID config.RootKeyID "RootKeyID" = .ok () ∧
       validateGCPKeyID config.IntermediateKeyID "IntermediateKeyID" = .ok () ∧
       validateGCPKeyID config.LeafKeyID "LeafKeyID" = .ok () ∧
       config.RootKeyID ≠ "" ∧ config.LeafKeyID ≠ "") := by
  cases hv1 : validateGCPKeyID config.RootKeyID "RootKeyID" with
  | error e => simp [ValidateKMSConfig, perTypeValidation, ht, hro, hv1]
  | ok u =>
    cases u
    cases hv2 : validateGCPKeyID config.IntermediateKeyID "IntermediateKeyID" with
    | error e => simp [ValidateKMSConfig, perTypeValidation, ht, hro, hv1, hv2]
    | ok u =>
      cases u
      cases hv3 : validateGCPKeyID config.LeafKeyID "LeafKeyID" with
      | error e => simp [ValidateKMSConfig, perTypeValidation, ht, hro, hv1, hv2, hv3]
      | ok u =>
        cases u
        by_cases hr : config.RootKeyID = "" <;> by_cases hl : config.LeafKeyID = "" <;>
          simp [ValidateKMSConfig, perTypeValidation, ht, hro, hv1, hv2, hv3, hr, hl,
                show ∀ t, validateGCPKeyID "" t = .ok () from fun t => rfl]

theorem validateConfig_azure_tie (config : KMSConfig) (ht : config.typ = "azurekms")
    (hn : config.Options ≠ none)
    (hro : optGet config.Options "azure-tenant-id" ≠ "") :
    (ValidateKMSConfig config = .ok ()) ↔
      (validateAzureKeyID config.RootKeyID "RootKeyID" = .ok () ∧
       validateAzureKeyID config.IntermediateKeyID "IntermediateKeyID" = .ok () ∧
       validateAzureKeyID config.LeafKeyID "LeafKeyID" = .ok () ∧
       config.RootKeyID ≠ "" ∧ config.LeafKeyID ≠ "") := by
  cases hv1 : validateAzureKeyID config.RootKeyID "RootKeyID" with
  | error e => simp [ValidateKMSConfig, perTypeValidation, ht, hn, hro, hv1]
  | ok u =>
    cases u
    cases hv2 : validateAzureKeyID config.IntermediateKeyID "IntermediateKeyID" with
    | error e => simp [ValidateKMSConfig, perTypeValidation, ht, hn, hro, hv1, hv2]
    | ok u =>
      cases u
      cases hv3 : validateAzureKeyID config.LeafKeyID "LeafKeyID" with
      | error e => simp [ValidateKMSConfig, perTypeValidation, ht, hn, hro, hv1, hv2, hv3]
      | ok u =>
        cases u
        by_cases hr : config.RootKeyID = "" <;> by_cases hl : config.LeafKeyID = "" <;>
          simp [ValidateKMSConfig, perTypeValidation, ht, hn, hro, hv1, hv2, hv3, hr, hl,
                show ∀ t, validateAzureKeyID "" t = .ok () from fun t => rfl]

theorem validateConfig_hv_tie (config : KMSConfig) (ht : config.typ = "hashivault")
    (hn : config.Options ≠ none)
    (hto : optGet config.Options "vault-token" ≠ "")
    (had : optGet config.Options "vault-address" ≠ "") :
    (ValidateKMSConfig config = .ok ()) ↔
      (validateHashiVaultKeyID config.RootKeyID "RootKeyID" = .ok () ∧
       validateHashiVaultKeyID config.IntermediateKeyID "IntermediateKeyID" = .ok () ∧
       validateHashiVaultKeyID config.LeafKeyID "LeafKeyID" = .ok () ∧
       config.RootKeyID ≠ "" ∧ config.LeafKeyID ≠ "") := by
  cases hv1 : validateHashiVaultKeyID config.RootKeyID "RootKeyID" with
  | error e => simp [ValidateKMSConfig, perTypeValidation, ht, hn, hto, had, hv1]
  | ok u =>
    cases u
    cases hv2 : validateHashiVaultKeyID config.IntermediateKeyID "IntermediateKeyID" with
    | error e => simp [ValidateKMSConfig, perTypeValidation, ht, hn, hto, had, hv1, hv2]
    | ok u =>
      cases u
      cases hv3 : validateHashiVaultKeyID config.LeafKeyID "LeafKeyID" with
      | error e => simp [ValidateKMSConfig, perTypeValidation, ht, hn, hto, had, hv1, hv2, hv3]
      | ok u =>
        cases u
        by_cases hr : config.RootKeyID = "" <;> by_cases hl : config.LeafKeyID = "" <;>
          simp [ValidateKMSConfig, perTypeValidation, ht, hn, hto, had, hv1, hv2, hv3, hr, hl,
                show ∀ t, validateHashiVaultKeyID "" t = .ok () from fun t => rfl]

theorem unsupported_ne_rootmsg (t : String) :
    ("unsupported KMS type: " ++ t) ≠ "RootKeyID must be specified" := by
  intro hc
  have h2 := congrArg (fun s => s.data.head?) hc
  simp [String.data_append] at h2

theorem unsupported_ne_leafmsg (t : String) :
    ("unsupported KMS type: " ++ t) ≠ "LeafKeyID must be specified" := by
  intro hc
  have h2 := congrArg (fun s => s.data.head?) hc
  simp [String.data_append] at h2

/-- C2 (amended): for every provider and every non-empty key identifier, the
per-identifier check used by ValidateKMSConfig accepts exactly the documented
grammar, with the Azure name and vault parts required non-empty after
whitespace trimming; and ValidateKMSConfig accepts a config whose options
pass exactly when all three identifier fields pass their check and RootKeyID
and LeafKeyID are non-empty. -/
theorem C2_validator_grammars :
    (∀ region keyType keyID : String, keyID ≠ "" →
      ((validateAWSKeyID region keyID keyType = .ok ()) ↔ awsGrammar region keyID = true) ∧
      ((validateGCPKeyID keyID keyType = .ok ()) ↔ gcpGrammar keyID = true) ∧
      ((validateAzureKeyID keyID keyType = .ok ()) ↔ azureGrammarTrimmed keyID = true) ∧
      ((validateHashiVaultKeyID keyID keyType = .ok ()) ↔ hvGrammar keyID = true)) ∧
    (∀ config : KMSConfig,
      (config.typ = "awskms" → optGet config.Options "aws-region" ≠ "" →
        ((ValidateKMSConfig config = .ok ()) ↔
          (validateAWSKeyID (optGet config.Options "aws-region") config.RootKeyID "RootKeyID" = .ok () ∧
           validateAWSKeyID (optGet config.Options "aws-region") config.IntermediateKeyID "IntermediateKeyID" = .ok () ∧
           validateAWSKeyID (optGet config.Options "aws-region") config.LeafKeyID "LeafKeyID" = .ok () ∧
           config.RootKeyID ≠ "" ∧ config.LeafKeyID ≠ ""))) ∧
      (config.typ = "gcpkms" → optGet config.Options "gcp-credentials-file" ≠ "" →
        ((ValidateKMSConfig config = .ok ()) ↔
          (validateGCPKeyID config.RootKeyID "RootKeyID" = .ok () ∧
           validateGCPKeyID config.IntermediateKeyID "IntermediateKeyID" = .ok () ∧
           validateGCPKeyID config.LeafKeyID "LeafKeyID" = .ok () ∧
           config.RootKeyID ≠ "" ∧ config.LeafKeyID ≠ ""))) ∧
      (config.typ = "azurekms" → config.Options ≠ none →
        optGet config.Options "azure-tenant-id" ≠ "" →
        ((ValidateKMSConfig config = .ok ()) ↔
          (validateAzureKeyID config.RootKeyID "RootKeyID" = .ok () ∧
           validateAzureKeyID config.IntermediateKeyID "IntermediateKeyID" = .ok () ∧
           validateAzureKeyID config.LeafKeyID "LeafKeyID" = .ok () ∧
           config.RootKeyID ≠ "" ∧ config.LeafKeyID ≠ ""))) ∧
      (config.typ = "hashivault" → config.Options ≠ none →
        optGet config.Options "vault-token" ≠ "" →
        optGet config.Options "vault-address" ≠ "" →
        ((ValidateKMSConfig config = .ok ()) ↔
          (validateHashiVaultKeyID config.RootKeyID "RootKeyID" = .ok () ∧
           validateHashiVaultKeyID config.IntermediateKeyID "IntermediateKeyID" = .ok () ∧
           validateHashiVaultKeyID config.LeafKeyID "LeafKeyID" = .ok () ∧
           config.RootKeyID ≠ "" ∧ config.LeafKeyID ≠ "")))) :=
  ⟨fun region keyType keyID h =>
    ⟨validateAWS_iff region keyType keyID h, validateGCP_iff keyType keyID h,
     validateAzure_iff keyType keyID h, validateHV_iff keyType keyID h⟩,
   fun config =>
    ⟨fun ht hro => validateConfig_aws_tie config ht hro,
     fun ht hro => validateConfig_gcp_tie config ht hro,
     fun ht hn hro => validateConfig_azure_tie config ht hn hro,
     fun ht hn hto had => validateConfig_hv_tie config ht hn hto had⟩⟩

/-- C2 counterexample: the Azure identifier with a blank (space) name part
satisfies the documented grammar as the claim words it, yet the validator and
ValidateKMSConfig reject it, because the source trims whitespace before the
emptiness check. -/
theorem C2_counterexample :
    azureGrammar "azurekms:name= ;vault=v" = true ∧
    validateAzureKeyID "azurekms:name= ;vault=v" "RootKeyID" =
      .error "key name cannot be empty for RootKeyID" ∧
    ValidateKMSConfig exCfgAzureBlank =
      .error "key name cannot be empty for RootKeyID" :=
  ⟨by decide, by decide, by decide⟩

/-- Witness for C2 on a concrete HashiVault identifier. -/
theorem C2_witness :
    ("transit/keys/k" : String) ≠ "" ∧
    ((validateHashiVaultKeyID "transit/keys/k" "RootKeyID" = .ok ()) ↔
      hvGrammar "transit/keys/k" = true) :=
  ⟨by decide, (C2_validator_grammars.1 "r" "RootKeyID" "transit/keys/k" (by decide)).2.2.2⟩

/-- C3: ValidateKMSConfig checks RootKeyID and LeafKeyID emptiness only after
the per-type checks, so an unrecognized type or a missing provider option is
reported with the type or option error, never with the
RootKeyID/LeafKeyID-must-be-specified error, whatever the key fields hold. -/
theorem C3_type_errors_take_priority (config : KMSConfig) :
    (config.typ = "" → ValidateKMSConfig config = .error "KMS type cannot be empty") ∧
    (config.typ ∉ (["", "awskms", "gcpkms", "azurekms", "hashivault"] : List String) →
      ValidateKMSConfig config = .error ("unsupported KMS type: " ++ config.typ) ∧
      ("unsupported KMS type: " ++ config.typ) ≠ "RootKeyID must be specified" ∧
      ("unsupported KMS type: " ++ config.typ) ≠ "LeafKeyID must be specified") ∧
    (config.typ = "awskms" → optGet config.Options "aws-region" = "" →
      ValidateKMSConfig config = .error "aws-region is required for AWS KMS") ∧
    (config.typ = "gcpkms" → optGet config.Options "gcp-credentials-file" = "" →
      ValidateKMSConfig config = .error "gcp-credentials-file is required for GCP KMS") ∧
    (config.typ = "azurekms" → config.Options = none →
      ValidateKMSConfig config = .error "options map is required for Azure KMS") ∧
    (config.typ = "azurekms" → config.Options ≠ none →
      optGet config.Options "azure-tenant-id" = "" →
      ValidateKMSConfig config = .error "azure-tenant-id is required for Azure KMS") ∧
    (config.typ = "hashivault" → config.Options = none →
      ValidateKMSConfig config = .error "options map is required for HashiVault KMS") ∧
    (config.typ = "hashivault" → config.Options ≠ none →
      optGet config.Options "vault-token" = "" →
      ValidateKMSConfig config = .error "vault-token is required for HashiVault KMS") ∧
    (config.typ = "hashivault" → config.Options ≠ none →
      optGet config.Options "vault-token" ≠ "" →
      optGet config.Options "vault-address" = "" →
      ValidateKMSConfig config = .error "vault-address is required for HashiVault KMS") ∧
    (∀ m ∈ (["aws-region is required for AWS KMS",
             "gcp-credentials-file is required for GCP KMS",
             "options map is required for Azure KMS",
             "azure-tenant-id is required for Azure KMS",
             "options map is required for HashiVault KMS",
             "vault-token is required for HashiVault KMS",
             "vault-address is required for HashiVault KMS"] : List String),
      m ≠ "RootKeyID must be specified" ∧ m ≠ "LeafKeyID must be specified") := by
  refine ⟨?_, ?_, ?_, ?_, ?_, ?_, ?_, ?_, ?_, by decide⟩
  · intro h; simp [ValidateKMSConfig, h]
  · intro h
    simp only [List.mem_cons, List.mem_singleton, not_or] at h
    obtain ⟨h0, h1, h2, h3, h4, -⟩ := h
    exact ⟨by simp [ValidateKMSConfig, perTypeValidation, h0, h1, h2, h3, h4],
           unsupported_ne_rootmsg config.typ, unsupported_ne_leafmsg config.typ⟩
  · intro ht h
    simp [ValidateKMSConfig, perTypeValidation, ht, h]
  · intro ht h
    simp [ValidateKMSConfig, perTypeValidation, ht, h]
  · intro ht h
    simp [ValidateKMSConfig, perTypeValidation, ht, h]
  · intro ht hn h
    simp [ValidateKMSConfig, perTypeValidation, ht, hn, h]
  · intro ht h
    simp [ValidateKMSConfig, perTypeValidation, ht, h]
  · intro ht hn h
    simp [ValidateKMSConfig, perTypeValidation, ht, hn, h]
  · intro ht hn h1 h2
    simp [ValidateKMSConfig, perTypeValidation, ht, hn, h1, h2]

/-- Witness for C3 on an unrecognized type with both key fields empty. -/
theorem C3_witness :
    ValidateKMSConfig ⟨"cn", "fakekms", "", "", "", none⟩ =
      .error ("unsupported KMS type: " ++ "fakekms") :=
  (((C3_type_errors_take_priority ⟨"cn", "fakekms", "", "", "", none⟩).2.1) (by decide)).1

/-- C5 (amended): in InitKMS with type azurekms, a RootKeyID of the short
form azurekms:name=N;vault=V is rewritten to
azurekms://trim(V).vault.azure.net/trim(N), the name and vault parts being
whitespace-trimmed before insertion; a RootKeyID without the prefix or the
separator is passed through unchanged; and the reference handed to kms.Get
is exactly this rewrite of RootKeyID. -/
theorem C5_azure_rewrite (kmsGet : String → Except String (Option SV))
    (config : KMSConfig) (k : String) :
    (strHasPre "azurekms:name=" k = true → strIndex k ";vault=" ≠ -1 →
      azureKeyURI k = "azurekms://" ++ strTrim (azureVaultPart k) ++ ".vault.azure.net/"
        ++ strTrim (azureNamePart k)) ∧
    (strHasPre "azurekms:name=" k = false ∨ strIndex k ";vault=" = -1 →
      azureKeyURI k = k) ∧
    (config.typ = "azurekms" → ValidateKMSConfig config = .ok () →
      (InitKMS kmsGet config).2.kmsGets = [azureKeyURI config.RootKeyID]) := by
  refine ⟨?_, ?_, ?_⟩
  · intro h1 h2
    have h9 := strIndex_name_of_pre k h1
    have h14 : (strIndex k "name=" + 5).toNat = 14 := by rw [h9]; rfl
    simp [azureKeyURI, azureNamePart, azureVaultPart, h1, h2, h14]
  · intro h
    rcases h with h | h
    · simp [azureKeyURI, h]
    · simp [azureKeyURI, h]
  · intro ht hv
    cases hg : kmsGet (azureKeyURI config.RootKeyID) with
    | error e => simp [InitKMS, hv, ht, kmsFinish, hg]
    | ok o => cases o <;> simp [InitKMS, hv, ht, kmsFinish, hg]

/-- C5 counterexample: a short-form RootKeyID whose name part carries a
leading space is rewritten to the trimmed URI, not to the URI holding the
literal name part, and InitKMS passes the trimmed URI to kms.Get. -/
theorem C5_counterexample :
    azureKeyURI "azurekms:name= n;vault=v" = "azurekms://v.vault.azure.net/n" ∧
    azureKeyURI "azurekms:name= n;vault=v" ≠ "azurekms://v.vault.azure.net/ n" ∧
    azureNamePart "azurekms:name= n;vault=v" = " n" ∧
    (InitKMS exKmsGet exCfgAzureSpace).2.kmsGets = ["azurekms://v.vault.azure.net/n"] :=
  ⟨by decide, by decide, by decide, by decide⟩

/-- Witness for C5 on a clean short-form identifier and a pass-through one. -/
theorem C5_witness :
    azureKeyURI "azurekms:name=key1;vault=vault1" =
      "azurekms://" ++ strTrim (azureVaultPart "azurekms:name=key1;vault=vault1")
        ++ ".vault.azure.net/" ++ strTrim (azureNamePart "azurekms:name=key1;vault=vault1") ∧
    azureKeyURI "plain-key" = "plain-key" :=
  ⟨(C5_azure_rewrite exKmsGet exCfg "azurekms:name=key1;vault=vault1").1 (by decide) (by decide),
   (C5_azure_rewrite exKmsGet exCfg "plain-key").2.1 (.inl (by decide))⟩

/-! Helper lemmas about the orchestrator stages. -/

theorem rootStage_facts (ops : Ops) (sv : SV) (config : KMSConfig)
    (rtp rcp : String) (rl : Nat) (tr : Trace) :
    (rootStage ops sv config rtp rcp rl tr).2.initCalls = tr.initCalls ∧
    (rootStage ops sv config rtp rcp rl tr).2.createCalls.length ≤ tr.createCalls.length + 1 ∧
    (∀ rs rc, (rootStage ops sv config rtp rcp rl tr).1 = .ok (rs, rc) →
      sv.cryptoSigner = .ok rs ∧
      (rootStage ops sv config rtp rcp rl tr).2.sigAlgCalls = tr.sigAlgCalls ++ [rs] ∧
      (∃ cc : CreateCall, cc.signer = rs ∧
        (rootStage ops sv config rtp rcp rl tr).2.createCalls = tr.createCalls ++ [cc]) ∧
      (rootStage ops sv config rtp rcp rl tr).2.createResults = tr.createResults ++ [rc]) := by
  unfold rootStage
  repeat' split
  all_goals try simp
  all_goals (repeat' split)
  all_goals (try simp)
  all_goals (repeat' split)
  all_goals (try simp)
  all_goals (repeat' split)
  all_goals (try simp)
  all_goals assumption

theorem intermediateStage_facts (ops : Ops) (config : KMSConfig)
    (ikid itp icp : String) (il : Nat) (rootCert : Cert) (rootSigner : CSigner) (tr : Trace) :
    (intermediateStage ops config ikid itp icp il rootCert rootSigner tr).2.initCalls =
      tr.initCalls ++ [{ config with RootKeyID := ikid }] ∧
    (intermediateStage ops config ikid itp icp il rootCert rootSigner tr).2.createCalls.length ≤
      tr.createCalls.length + 1 ∧
    (∀ ic isg, (intermediateStage ops config ikid itp icp il rootCert rootSigner tr).1 = .ok (ic, isg) →
      (∃ isv : SV, ops.initKMS { config with RootKeyID := ikid } = .ok isv ∧
        isv.cryptoSigner = .ok isg) ∧
      (∃ cc : CreateCall, cc.signer = rootSigner ∧ cc.parent = rootCert ∧
        (intermediateStage ops config ikid itp icp il rootCert rootSigner tr).2.createCalls =
          tr.createCalls ++ [cc]) ∧
      (intermediateStage ops config ikid itp icp il rootCert rootSigner tr).2.createResults =
        tr.createResults ++ [ic]) := by
  unfold intermediateStage
  repeat' split
  all_goals try simp
  all_goals (repeat' split)
  all_goals (try simp)
  all_goals (repeat' split)
  all_goals (try simp)
  all_goals (repeat' split)
  all_goals (try simp)
  all_goals exact ⟨_, by assumption, by assumption⟩

theorem leafStage_facts (ops : Ops) (config : KMSConfig)
    (ltp lcp : String) (ll : Nat) (sc : Cert) (sk : CSigner) (tr : Trace) :
    (leafStage ops config ltp lcp ll sc sk tr).2.initCalls =
      tr.initCalls ++ [{ config with RootKeyID := config.LeafKeyID }] ∧
    (∃ C, (leafStage ops config ltp lcp ll sc sk tr).2.createResults = tr.createResults ++ C) ∧
    ((leafStage ops config ltp lcp ll sc sk tr).2.createCalls = tr.createCalls ∨
      ∃ cc : CreateCall, cc.parent = sc ∧ cc.signer = sk ∧
        ops.toSignatureAlgorithm sk = .ok cc.template.SignatureAlgorithm ∧
        (leafStage ops config ltp lcp ll sc sk tr).2.createCalls = tr.createCalls ++ [cc]) := by
  unfold leafStage
  repeat' split
  all_goals try simp
  all_goals (repeat' split)
  all_goals (try simp)
  all_goals (repeat' split)
  all_goals (try simp)
  all_goals (repeat' split)
  all_goals (try simp)
  all_goals exact ⟨_, rfl, rfl, by assumption, rfl⟩

theorem leafStage_requires_capability (ops : Ops) (config : KMSConfig)
    (ltp lcp : String) (ll : Nat) (sc : Cert) (sk : CSigner) (tr : Trace) (lsv : SV)
    (hin : ops.initKMS { config with RootKeyID := config.LeafKeyID } = .ok lsv)
    (hcap : lsv.hasCryptoSigner = false) :
    (leafStage ops config ltp lcp ll sc sk tr).1 ≠ .ok () := by
  unfold leafStage
  simp only [hin]
  cases hp : lsv.pubKey <;> simp [hp, hcap]

theorem leafStage_requires_signer (ops : Ops) (config : KMSConfig)
    (ltp lcp : String) (ll : Nat) (sc : Cert) (sk : CSigner) (tr : Trace) (lsv : SV) (e : String)
    (hin : ops.initKMS { config with RootKeyID := config.LeafKeyID } = .ok lsv)
    (hcs : lsv.cryptoSigner = .error e) :
    (leafStage ops config ltp lcp ll sc sk tr).1 ≠ .ok () := by
  unfold leafStage
  simp only [hin]
  cases hp : lsv.pubKey <;>
    cases hcap : lsv.hasCryptoSigner <;> simp [hp, hcap, hcs]

/-- Decomposition of CreateCertificates into its root, intermediate and leaf
stages, following the branching of the source. -/
theorem CreateCertificates_cases (ops : Ops) (sv : SV) (config : KMSConfig)
    (rtp ltp rcp lcp ikid itp icp : String) (rl il ll : Nat) :
    (∃ e tr, rootStage ops sv config rtp rcp rl Trace.empty = (.error e, tr) ∧
      CreateCertificates ops sv config rtp ltp rcp lcp ikid itp icp rl il ll = (.error e, tr)) ∨
    (∃ rs rc tr1, rootStage ops sv config rtp rcp rl Trace.empty = (.ok (rs, rc), tr1) ∧
      ((ikid = "" ∧
        CreateCertificates ops sv config rtp ltp rcp lcp ikid itp icp rl il ll =
          leafStage ops config ltp lcp ll rc rs tr1) ∨
       (ikid ≠ "" ∧
        ((∃ e tr2, intermediateStage ops config ikid itp icp il rc rs tr1 = (.error e, tr2) ∧
           CreateCertificates ops sv config rtp ltp rcp lcp ikid itp icp rl il ll = (.error e, tr2)) ∨
         (∃ ic isg tr2,
           intermediateStage ops config ikid itp icp il rc rs tr1 = (.ok (ic, isg), tr2) ∧
           CreateCertificates ops sv config rtp ltp rcp lcp ikid itp icp rl il ll =
             leafStage ops config ltp lcp ll ic isg tr2))))) := by
  unfold CreateCertificates
  cases hr : rootStage ops sv config rtp rcp rl Trace.empty with
  | mk r1 tr1 =>
    cases r1 with
    | error e => exact .inl ⟨e, tr1, rfl, rfl⟩
    | ok pr =>
      obtain ⟨rs, rc⟩ := pr
      refine .inr ⟨rs, rc, tr1, rfl, ?_⟩
      by_cases hik : ikid = ""
      · exact .inl ⟨hik, by simp [hik]⟩
      · refine .inr ⟨hik, ?_⟩
        cases hi : intermediateStage ops config ikid itp icp il rc rs tr1 with
        | mk r2 tr2 =>
          cases r2 with
          | error e => exact .inl ⟨e, tr2, rfl, by simp [hik, hi]⟩
          | ok pr2 =>
            obtain ⟨ic, isg⟩ := pr2
            exact .inr ⟨ic, isg, tr2, rfl, by simp [hik, hi]⟩

theorem leafStage_replaceCS (ops : Ops) (config : KMSConfig)
    (ltp lcp : String) (ll : Nat) (sc : Cert) (sk : CSigner) (tr : Trace) (s : CSigner) :
    leafStage { ops with initKMS := fun c => (ops.initKMS c).map (replaceCS s) }
      config ltp lcp ll sc sk tr = leafStage ops config ltp lcp ll sc sk tr := by
  unfold leafStage
  cases hin : ops.initKMS { config with RootKeyID := config.LeafKeyID } with
  | error e => simp [hin, Except.map]
  | ok lsv =>
    simp only [hin, Except.map]
    cases hp : lsv.pubKey
    · first
      | rfl
      | simp [hp, replaceCS]
    · simp only [hp, replaceCS]
      cases hcap : lsv.hasCryptoSigner
      · first
        | rfl
        | simp [hcap]
      · cases hcs : lsv.cryptoSigner <;> simp [hcs, Except.map]

theorem writeCert_result_indep (a b : String → Bool) (c : Option Cert) (f : String)
    (st1 st2 : WriteState) :
    (WriteCertificateToFile a b c f st1).1 = (WriteCertificateToFile a b c f st2).1 := by
  cases c with
  | none => rfl
  | some c0 =>
    by_cases h1 : c0.Raw = [] <;> by_cases h2 : a f <;> by_cases h3 : b f <;>
      simp [WriteCertificateToFile, h1, h2, h3]

theorem leafStage_setIK (ops : Ops) (config : KMSConfig) (x : String)
    (ltp lcp : String) (ll : Nat) (sc : Cert) (sk : CSigner) (tr1 tr2 : Trace)
    (hIK : ops.initKMS { config with IntermediateKeyID := x, RootKeyID := config.LeafKeyID } =
           ops.initKMS { config with RootKeyID := config.LeafKeyID }) :
    (leafStage ops { config with IntermediateKeyID := x } ltp lcp ll sc sk tr1).1 =
    (leafStage ops config ltp lcp ll sc sk tr2).1 := by
  unfold leafStage
  dsimp only
  rw [hIK]
  cases hin : ops.initKMS { config with RootKeyID := config.LeafKeyID } with
  | error e => rfl
  | ok lsv =>
    try dsimp only
    cases hp : lsv.pubKey with
    | error e => rfl
    | ok pk =>
      try dsimp only
      cases hcap : lsv.hasCryptoSigner
      · rfl
      · try dsimp only
        cases hcs : lsv.cryptoSigner with
        | error e => rfl
        | ok s0 =>
          try dsimp only
          cases hT : (if ltp = "" then
              match ops.getDefaultTemplate "leaf" with
              | Except.error e => Except.error ("error getting default leaf template: " ++ e)
              | Except.ok t => Except.ok t
            else
              match ops.readFile ltp with
              | Except.error e =>
                Except.error ("leaf template error: template not found at " ++ ltp ++ ": " ++ e)
              | Except.ok t => Except.ok t : Except String String) with
          | error e => rfl
          | ok t =>
            try dsimp only
            cases hpt : ops.parseTemplate t (some sc) (ops.now + ll) pk config.CommonName with
            | error e => rfl
            | ok tm =>
              try dsimp only
              cases halg : ops.toSignatureAlgorithm sk with
              | error e => rfl
              | ok alg =>
                try dsimp only
                cases hcc : ops.createCertificate { tm with SignatureAlgorithm := alg } sc pk sk with
                | error e => rfl
                | ok lc =>
                  try dsimp only
                  have hw := writeCert_result_indep ops.createOk ops.pemEncodeOk (some lc) lcp
                    tr1.writes tr2.writes
                  cases hw1 : WriteCertificateToFile ops.createOk ops.pemEncodeOk (some lc) lcp
                      tr1.writes with
                  | mk w1 ws1 =>
                    cases hw2 : WriteCertificateToFile ops.createOk ops.pemEncodeOk (some lc) lcp
                        tr2.writes with
                    | mk w2 ws2 =>
                      rw [hw1, hw2] at hw
                      dsimp only at hw
                      cases w1 <;> cases w2 <;> simp_all

theorem intermediateStage_setIK (ops : Ops) (config : KMSConfig) (x : String)
    (ikid itp icp : String) (il : Nat) (rc : Cert) (rs : CSigner) (tr : Trace)
    (hIK : ops.initKMS { config with IntermediateKeyID := x, RootKeyID := ikid } =
           ops.initKMS { config with RootKeyID := ikid }) :
    (intermediateStage ops { config with IntermediateKeyID := x } ikid itp icp il rc rs tr).1 =
    (intermediateStage ops config ikid itp icp il rc rs tr).1 := by
  unfold intermediateStage
  dsimp only
  rw [hIK]
  cases hin : ops.initKMS { config with RootKeyID := ikid } with
  | error e => rfl
  | ok isv =>
    try dsimp only
    cases hp : isv.pubKey with
    | error e => rfl
    | ok pk =>
      try dsimp only
      cases hcap : isv.hasCryptoSigner
      · rfl
      · try dsimp only
        cases hcs : isv.cryptoSigner with
        | error e => rfl
        | ok s0 =>
          try dsimp only
          cases hT : (if itp = "" then
              match ops.getDefaultTemplate "intermediate" with
              | Except.error e => Except.error ("error getting default intermediate template: " ++ e)
              | Except.ok t => Except.ok t
            else
              match ops.readFile itp with
              | Except.error e =>
                Except.error ("intermediate template error: template not found at " ++ itp ++ ": " ++ e)
              | Except.ok t => Except.ok t : Except String String) with
          | error e => rfl
          | ok t =>
            try dsimp only
            cases hpt : ops.parseTemplate t (some rc) (ops.now + il) pk config.CommonName with
            | error e => rfl
            | ok tm =>
              try dsimp only
              cases halg : ops.toSignatureAlgorithm s0 with
              | error e => rfl
              | ok alg =>
                try dsimp only
                cases hcc : ops.createCertificate { tm with SignatureAlgorithm := alg } rc pk rs with
                | error e => rfl
                | ok ic =>
                  try dsimp only
                  cases hw : WriteCertificateToFile ops.createOk ops.pemEncodeOk (some ic) icp
                      tr.writes with
                  | mk w ws =>
                    cases w <;> rfl

/-- C1 counterexample: in a fully successful three-certificate run with
distinct root and intermediate signers, the leaf createCertificate call uses
the intermediate signer (id 1), not the root signer (id 0), and the leaf
signature algorithm is computed from the intermediate signer, refuting the
claim that the root signer stays the active signing key. -/
theorem C1_counterexample :
    ((CreateCertificates exOps exSV exCfg "" "" "root.pem" "leaf.pem" "alias/ik" "" "int.pem"
        10 5 1).2.createCalls.map CreateCall.signer) = [⟨0⟩, ⟨0⟩, ⟨1⟩] ∧
    (CreateCertificates exOps exSV exCfg "" "" "root.pem" "leaf.pem" "alias/ik" "" "int.pem"
        10 5 1).2.sigAlgCalls = [⟨0⟩, ⟨1⟩, ⟨1⟩] ∧
    exSV.cryptoSigner = .ok ⟨0⟩ ∧ ((⟨1⟩ : CSigner) ≠ ⟨0⟩) := by
  refine ⟨by decide, by decide, rfl, by decide⟩

/-- C1 (amended): when intermediateKeyID is non-empty and the run reaches the
leaf signing call, the leaf certificate is signed with issuer certificate =
the intermediate certificate and signing key = the intermediate signer
obtained from the intermediate KMS handle, and the leaf template signature
algorithm is derived from that intermediate signer. -/
theorem C1_leaf_signed_by_intermediate (ops : Ops) (sv : SV) (config : KMSConfig)
    (rtp ltp rcp lcp ikid itp icp : String) (rl il ll : Nat)
    (isv : SV) (iSigner : CSigner) (c1 c2 c3 : CreateCall)
    (hik : ikid ≠ "")
    (hinit : ops.initKMS { config with RootKeyID := ikid } = .ok isv)
    (hcsv : isv.cryptoSigner = .ok iSigner)
    (hcalls : (CreateCertificates ops sv config rtp ltp rcp lcp ikid itp icp rl il ll).2.createCalls =
      [c1, c2, c3]) :
    c3.signer = iSigner ∧
    (CreateCertificates ops sv config rtp ltp rcp lcp ikid itp icp rl il ll).2.createResults[1]? =
      some c3.parent ∧
    ops.toSignatureAlgorithm iSigner = .ok c3.template.SignatureAlgorithm := by
  rcases CreateCertificates_cases ops sv config rtp ltp rcp lcp ikid itp icp rl il ll with
    ⟨e, tr, hr, hEq⟩ | ⟨rs, rc, tr1, hr, hrest⟩
  · have h0 := (rootStage_facts ops sv config rtp rcp rl Trace.empty).2.1
    rw [hr] at h0
    rw [hEq] at hcalls
    dsimp only at hcalls h0
    rw [hcalls] at h0
    simp [Trace.empty] at h0
  · rcases hrest with ⟨hik0, _⟩ | ⟨_, hrest2⟩
    · exact absurd hik0 hik
    · have hroot := (rootStage_facts ops sv config rtp rcp rl Trace.empty).2.2 rs rc (by rw [hr])
      obtain ⟨-, -, ⟨cc1, hcc1s, hcalls1⟩, hres1⟩ := hroot
      rw [hr] at hcalls1 hres1
      simp only [Trace.empty] at hcalls1 hres1
      simp at hcalls1 hres1
      rcases hrest2 with ⟨e, tr2, hi, hEq⟩ | ⟨ic, isg, tr2, hi, hEq⟩
      · have h1 := (intermediateStage_facts ops config ikid itp icp il rc rs tr1).2.1
        rw [hi] at h1
        rw [hEq] at hcalls
        dsimp only at hcalls h1
        rw [hcalls, hcalls1] at h1
        simp at h1
      · have hint := (intermediateStage_facts ops config ikid itp icp il rc rs tr1).2.2 ic isg
          (by rw [hi])
        obtain ⟨⟨isv0, hin0, hcs0⟩, ⟨cc2, hcc2s, hcc2p, hcalls2⟩, hres2⟩ := hint
        rw [hi] at hcalls2 hres2
        simp at hcalls2 hres2
        rw [hinit] at hin0
        injection hin0 with hisv
        subst hisv
        rw [hcsv] at hcs0
        injection hcs0 with hisg
        subst hisg
        rw [hEq] at hcalls ⊢
        obtain ⟨-, ⟨C, hresL⟩, hdisj⟩ := leafStage_facts ops config ltp lcp ll ic iSigner tr2
        rcases hdisj with hsame | ⟨cc3, hp3, hs3, halg3, happ⟩
        · rw [hsame, hcalls2, hcalls1] at hcalls
          simp at hcalls
        · rw [happ, hcalls2, hcalls1] at hcalls
          simp at hcalls
          obtain ⟨-, -, h33⟩ := hcalls
          subst h33
          refine ⟨hs3, ?_, by rw [halg3]⟩
          rw [hresL, hres2, hres1]
          simp [hp3]

/-- Witness for C1 on the concrete fixture run: the leaf call is signed with
the intermediate signer (id 1) against the intermediate certificate. -/
theorem C1_witness :
    (⟨⟨[12], true, true, 101⟩, ⟨[11, 0], true, true, 101⟩, ⟨12⟩, ⟨1⟩⟩ : CreateCall).signer =
      ⟨1⟩ ∧
    (CreateCertificates exOps exSV exCfg "" "" "root.pem" "leaf.pem" "alias/ik" "" "int.pem"
        10 5 1).2.createResults[1]? =
      some (⟨⟨[12], true, true, 101⟩, ⟨[11, 0], true, true, 101⟩, ⟨12⟩, ⟨1⟩⟩ : CreateCall).parent ∧
    exOps.toSignatureAlgorithm ⟨1⟩ =
      .ok (⟨⟨[12], true, true, 101⟩, ⟨[11, 0], true, true, 101⟩, ⟨12⟩, ⟨1⟩⟩ : CreateCall).template.SignatureAlgorithm :=
  C1_leaf_signed_by_intermediate exOps exSV exCfg "" "" "root.pem" "leaf.pem" "alias/ik" ""
    "int.pem" 10 5 1 ⟨.ok ⟨11⟩, true, .ok ⟨1⟩⟩ ⟨1⟩
    ⟨⟨[9], true, true, 100⟩, ⟨[9], true, true, 100⟩, ⟨9⟩, ⟨0⟩⟩
    ⟨⟨[11], true, true, 101⟩, ⟨[9, 0], true, true, 100⟩, ⟨11⟩, ⟨0⟩⟩
    ⟨⟨[12], true, true, 101⟩, ⟨[11, 0], true, true, 101⟩, ⟨12⟩, ⟨1⟩⟩
    (by decide) (by decide) rfl (by decide)

/-- C8: the configs handed to InitKMS are copies of the callers config with
only RootKeyID replaced (by intermediateKeyID for the intermediate stage and
by LeafKeyID for the leaf stage), the intermediate call happens only when the
intermediateKeyID parameter is non-empty, and the run outcome does not depend
on config.IntermediateKeyID except through what InitKMS itself does with it. -/
theorem C8_config_copies (ops : Ops) (sv : SV) (config : KMSConfig)
    (rtp ltp rcp lcp ikid itp icp : String) (rl il ll : Nat) :
    (ikid ≠ "" →
      (CreateCertificates ops sv config rtp ltp rcp lcp ikid itp icp rl il ll).2.initCalls = [] ∨
      (CreateCertificates ops sv config rtp ltp rcp lcp ikid itp icp rl il ll).2.initCalls =
        [{ config with RootKeyID := ikid }] ∨
      (CreateCertificates ops sv config rtp ltp rcp lcp ikid itp icp rl il ll).2.initCalls =
        [{ config with RootKeyID := ikid }, { config with RootKeyID := config.LeafKeyID }]) ∧
    (ikid = "" →
      (CreateCertificates ops sv config rtp ltp rcp lcp ikid itp icp rl il ll).2.initCalls = [] ∨
      (CreateCertificates ops sv config rtp ltp rcp lcp ikid itp icp rl il ll).2.initCalls =
        [{ config with RootKeyID := config.LeafKeyID }]) ∧
    ((CreateCertificates ops sv config rtp ltp rcp lcp ikid itp icp rl il ll).1 = .ok () →
      (CreateCertificates ops sv config rtp ltp rcp lcp ikid itp icp rl il ll).2.initCalls =
        (if ikid = "" then [{ config with RootKeyID := config.LeafKeyID }]
         else [{ config with RootKeyID := ikid }, { config with RootKeyID := config.LeafKeyID }])) ∧
    (∀ x y : String,
      (∀ (c : KMSConfig) (v : String),
        ops.initKMS { c with IntermediateKeyID := v } = ops.initKMS c) →
      (CreateCertificates ops sv { config with IntermediateKeyID := x }
        rtp ltp rcp lcp ikid itp icp rl il ll).1 =
      (CreateCertificates ops sv { config with IntermediateKeyID := y }
        rtp ltp rcp lcp ikid itp icp rl il ll).1) := by
  have hempty : Trace.empty.initCalls = [] := rfl
  refine ⟨?_, ?_, ?_, ?_⟩
  · intro hik
    rcases CreateCertificates_cases ops sv config rtp ltp rcp lcp ikid itp icp rl il ll with
      ⟨e, tr, hr, hEq⟩ | ⟨rs, rc, tr1, hr, hrest⟩
    · have h0 := (rootStage_facts ops sv config rtp rcp rl Trace.empty).1
      rw [hr] at h0
      rw [hEq]
      exact .inl (by simpa using h0)
    · have h0 := (rootStage_facts ops sv config rtp rcp rl Trace.empty).1
      rw [hr] at h0
      simp only [hempty] at h0
      rcases hrest with ⟨hik0, _⟩ | ⟨_, hrest2⟩
      · exact absurd hik0 hik
      · rcases hrest2 with ⟨e, tr2, hi, hEq⟩ | ⟨ic, isg, tr2, hi, hEq⟩
        · have h1 := (intermediateStage_facts ops config ikid itp icp il rc rs tr1).1
          rw [hi] at h1
          rw [hEq]
          refine .inr (.inl ?_)
          simpa [h0] using h1
        · have h1 := (intermediateStage_facts ops config ikid itp icp il rc rs tr1).1
          rw [hi] at h1
          have h2 := (leafStage_facts ops config ltp lcp ll ic isg tr2).1
          rw [hEq]
          refine .inr (.inr ?_)
          simp only [h2]
          simp at h1
          simp [h1, h0]
  · intro hik
    rcases CreateCertificates_cases ops sv config rtp ltp rcp lcp ikid itp icp rl il ll with
      ⟨e, tr, hr, hEq⟩ | ⟨rs, rc, tr1, hr, hrest⟩
    · have h0 := (rootStage_facts ops sv config rtp rcp rl Trace.empty).1
      rw [hr] at h0
      rw [hEq]
      exact .inl (by simpa using h0)
    · have h0 := (rootStage_facts ops sv config rtp rcp rl Trace.empty).1
      rw [hr] at h0
      simp only [hempty] at h0
      rcases hrest with ⟨_, hEq⟩ | ⟨hik0, _⟩
      · have h2 := (leafStage_facts ops config ltp lcp ll rc rs tr1).1
        rw [hEq]
        refine .inr ?_
        simp only [h2]
        simp [h0]
      · exact absurd hik hik0
  · intro hok
    rcases CreateCertificates_cases ops sv config rtp ltp rcp lcp ikid itp icp rl il ll with
      ⟨e, tr, hr, hEq⟩ | ⟨rs, rc, tr1, hr, hrest⟩
    · rw [hEq] at hok; simp at hok
    · have h0 := (rootStage_facts ops sv config rtp rcp rl Trace.empty).1
      rw [hr] at h0
      simp only [hempty] at h0
      rcases hrest with ⟨hik0, hEq⟩ | ⟨hik0, hrest2⟩
      · have h2 := (leafStage_facts ops config ltp lcp ll rc rs tr1).1
        rw [hEq]
        simp [hik0, h2, h0]
      · rcases hrest2 with ⟨e, tr2, hi, hEq⟩ | ⟨ic, isg, tr2, hi, hEq⟩
        · rw [hEq] at hok; simp at hok
        · have h1 := (intermediateStage_facts ops config ikid itp icp il rc rs tr1).1
          rw [hi] at h1
          simp at h1
          have h2 := (leafStage_facts ops config ltp lcp ll ic isg tr2).1
          rw [hEq]
          simp [hik0, h2, h1, h0]
  · intro x y hyp
    have key : ∀ z : String,
        (CreateCertificates ops sv { config with IntermediateKeyID := z }
          rtp ltp rcp lcp ikid itp icp rl il ll).1 =
        (CreateCertificates ops sv config rtp ltp rcp lcp ikid itp icp rl il ll).1 := by
      intro z
      unfold CreateCertificates
      rw [show rootStage ops sv { config with IntermediateKeyID := z } rtp rcp rl Trace.empty =
            rootStage ops sv config rtp rcp rl Trace.empty from rfl]
      cases hr : rootStage ops sv config rtp rcp rl Trace.empty with
      | mk r1 tr1 =>
        cases r1 with
        | error e => rfl
        | ok pr =>
          obtain ⟨rs, rc⟩ := pr
          dsimp only
          by_cases hik : ikid = ""
          · rw [if_neg (by simp [hik]), if_neg (by simp [hik])]
            exact leafStage_setIK ops config z ltp lcp ll rc rs tr1 tr1
              (hyp { config with RootKeyID := config.LeafKeyID } z)
          · rw [if_pos hik, if_pos hik]
            rcases hi1 : intermediateStage ops { config with IntermediateKeyID := z }
                ikid itp icp il rc rs tr1 with ⟨r2x, tr2x⟩
            rcases hi2 : intermediateStage ops config ikid itp icp il rc rs tr1 with ⟨r2, tr2⟩
            have h12 : r2x = r2 := by
              have hh := intermediateStage_setIK ops config z ikid itp icp il rc rs tr1
                (hyp { config with RootKeyID := ikid } z)
              rw [hi1, hi2] at hh
              exact hh
            subst h12
            cases r2x with
            | error e => rfl
            | ok pr2 =>
              obtain ⟨ic, isg⟩ := pr2
              exact leafStage_setIK ops config z ltp lcp ll ic isg tr2x tr2
                (hyp { config with RootKeyID := config.LeafKeyID } z)
    exact (key x).trans (key y).symm

/-- Witness for C8: the fixture run succeeds and records exactly the
intermediate and leaf config copies. -/
theorem C8_witness :
    (CreateCertificates exOps exSV exCfg "" "" "root.pem" "leaf.pem" "alias/ik" "" "int.pem"
        10 5 1).2.initCalls =
      (if ("alias/ik" : String) = "" then [{ exCfg with RootKeyID := exCfg.LeafKeyID }]
       else [{ exCfg with RootKeyID := "alias/ik" },
             { exCfg with RootKeyID := exCfg.LeafKeyID }]) :=
  (C8_config_copies exOps exSV exCfg "" "" "root.pem" "leaf.pem" "alias/ik" "" "int.pem"
    10 5 1).2.2.1 (by decide)

/-- C9: CreateCertificates requires the leaf signer to implement the
CryptoSigner capability and its CryptoSigner call to succeed, aborting the
whole build otherwise; yet the obtained leaf crypto signer is discarded:
replacing the delivered signer value by any other changes nothing in the run,
the leaf certificate being signed by the active signing key. -/
theorem C9_leaf_signer_required_but_discarded (ops : Ops) (sv : SV) (config : KMSConfig)
    (rtp ltp rcp lcp ikid itp icp : String) (rl il ll : Nat) (lsv : SV) :
    (ops.initKMS { config with RootKeyID := config.LeafKeyID } = .ok lsv →
      (lsv.hasCryptoSigner = false →
        (CreateCertificates ops sv config rtp ltp rcp lcp ikid itp icp rl il ll).1 ≠ .ok ()) ∧
      (∀ e, lsv.cryptoSigner = .error e →
        (CreateCertificates ops sv config rtp ltp rcp lcp ikid itp icp rl il ll).1 ≠ .ok ())) ∧
    (∀ s : CSigner, ikid = "" →
      CreateCertificates { ops with initKMS := fun c => (ops.initKMS c).map (replaceCS s) }
        sv config rtp ltp rcp lcp ikid itp icp rl il ll =
      CreateCertificates ops sv config rtp ltp rcp lcp ikid itp icp rl il ll) := by
  constructor
  · intro hin
    have key : (∀ sc sk tr, (leafStage ops config ltp lcp ll sc sk tr).1 ≠ .ok ()) →
        (CreateCertificates ops sv config rtp ltp rcp lcp ikid itp icp rl il ll).1 ≠ .ok () := by
      intro hleaf
      rcases CreateCertificates_cases ops sv config rtp ltp rcp lcp ikid itp icp rl il ll with
        ⟨e, tr, _, hEq⟩ | ⟨rs, rc, tr1, _, hrest⟩
      · rw [hEq]; simp
      · rcases hrest with ⟨_, hEq⟩ | ⟨_, hrest2⟩
        · rw [hEq]; exact hleaf rc rs tr1
        · rcases hrest2 with ⟨e, tr2, _, hEq⟩ | ⟨ic, isg, tr2, _, hEq⟩
          · rw [hEq]; simp
          · rw [hEq]; exact hleaf ic isg tr2
    constructor
    · intro hcap
      exact key (fun sc sk tr =>
        leafStage_requires_capability ops config ltp lcp ll sc sk tr lsv hin hcap)
    · intro e hcs
      exact key (fun sc sk tr =>
        leafStage_requires_signer ops config ltp lcp ll sc sk tr lsv e hin hcs)
  · intro s hik
    unfold CreateCertificates
    rw [show rootStage { ops with initKMS := fun c => (ops.initKMS c).map (replaceCS s) }
          sv config rtp rcp rl Trace.empty = rootStage ops sv config rtp rcp rl Trace.empty
        from rfl]
    cases hr : rootStage ops sv config rtp rcp rl Trace.empty with
    | mk r1 tr1 =>
      cases r1 with
      | error e => rfl
      | ok pr =>
        obtain ⟨rs, rc⟩ := pr
        dsimp only
        rw [if_neg (by simp [hik]), if_neg (by simp [hik])]
        exact leafStage_replaceCS ops config ltp lcp ll rc rs tr1 s

/-- Witness for C9 on an oracle whose leaf signer lacks the CryptoSigner
capability: the build cannot succeed. -/
theorem C9_witness :
    (CreateCertificates exOpsNoCap exSV exCfg "" "" "root.pem" "leaf.pem" "" "" "int.pem"
        10 5 1).1 ≠ .ok () :=
  ((C9_leaf_signer_required_but_discarded exOpsNoCap exSV exCfg "" "" "root.pem" "leaf.pem" ""
      "" "int.pem" 10 5 1 ⟨.ok ⟨12⟩, false, .ok ⟨2⟩⟩).1 rfl).1 rfl

end Certmaker
